import Mathlib

/-!
Verification of the drowsiness-detection core against its source.

Shallow embedding of:
  - `src/core/ear.py` (EARSmoother, EARCalculator.calculate_single_eye_ear,
    EARCalculator.calculate_ear),
  - `src/core/detector.py` (DrowsinessDetector.recv state machine),
  - `src/core/vehicle_dynamics.py` (VehicleDynamicsAnalyzer.classify_risk_level),
  - `src/core/fusion.py` (MultiModalDetector._weighted_fusion),
  - `src/core/alerts.py` (AlertSystem trigger_alert / reset throttle),
  - `src/utils/alert_system.py` (AdvancedAlertSystem create_alert dedup).

Python floats are modelled as rationals where the code only adds, divides and
compares, and as reals where a square root occurs (Euclidean distances).
-/

namespace DrowsinessDetection

/-- Arithmetic mean of a list, `np.mean`: sum divided by length.
(`np.mean []` is NaN; every use below is guarded exactly as the code guards it.) -/
def mean (l : List ℚ) : ℚ := l.sum / l.length

/-- `collections.deque(maxlen := m)` append, and equivalently the
append-then-`pop(0)` idiom of `EARSmoother.add`: append `x`, then drop from the
front whatever exceeds capacity `m`. -/
def deqPush {α : Type} (m : ℕ) (l : List α) (x : α) : List α :=
  let l2 := l ++ [x]
  l2.drop (l2.length - m)

theorem deqPush_eq_drop {α : Type} (m : ℕ) (l : List α) (x : α) :
    deqPush m l x = (l ++ [x]).drop ((l ++ [x]).length - m) := rfl

theorem length_deqPush {α : Type} (m : ℕ) (l : List α) (x : α) :
    (deqPush m l x).length = min (l.length + 1) m := by
  simp [deqPush]
  omega

/-! ## EARSmoother (`src/core/ear.py`, lines 207-245) -/

/-- State of `EARSmoother`: the configured window size and the buffer list. -/
structure EARSmoother where
  windowSize : ℕ
  buffer : List ℚ

/-- `EARSmoother(window_size = n)`: fresh smoother with empty buffer. -/
def mkSmoother (n : ℕ) : EARSmoother := ⟨n, []⟩

/-- `EARSmoother.add`: append the value, `pop(0)` if the buffer exceeds the
window, return the mean of the (updated) buffer together with the new state. -/
def EARSmoother.add (s : EARSmoother) (x : ℚ) : ℚ × EARSmoother :=
  let b := s.buffer ++ [x]
  let b2 := if s.windowSize < b.length then b.drop 1 else b
  (mean b2, ⟨s.windowSize, b2⟩)

/-- `EARSmoother.is_ready`: `len(self.buffer) >= self.window_size // 2`
(Python floor division). -/
def EARSmoother.is_ready (s : EARSmoother) : Bool :=
  decide (s.windowSize / 2 ≤ s.buffer.length)

/-- Feed a list of raw values through the smoother, keeping the final state. -/
def addAll (s : EARSmoother) (xs : List ℚ) : EARSmoother :=
  xs.foldl (fun t x => (t.add x).2) s

theorem addAll_nil (s : EARSmoother) : addAll s [] = s := rfl

theorem addAll_cons (s : EARSmoother) (x : ℚ) (xs : List ℚ) :
    addAll s (x :: xs) = addAll (s.add x).2 xs := rfl

theorem addAll_append (s : EARSmoother) (xs ys : List ℚ) :
    addAll s (xs ++ ys) = addAll (addAll s xs) ys := by
  simp [addAll, List.foldl_append]

theorem addAll_windowSize (s : EARSmoother) (xs : List ℚ) :
    (addAll s xs).windowSize = s.windowSize := by
  induction xs generalizing s with
  | nil => rfl
  | cons x xs ih => rw [addAll_cons, ih]; rfl

/-- Single-step buffer shape: appending then popping once from the front is a
drop-to-capacity, provided the buffer was within capacity. -/
theorem add_buffer (s : EARSmoother) (x : ℚ)
    (h : s.buffer.length ≤ s.windowSize) :
    (s.add x).2.buffer =
      (s.buffer ++ [x]).drop (s.buffer.length + 1 - s.windowSize) := by
  unfold EARSmoother.add
  by_cases hc : s.windowSize < (s.buffer ++ [x]).length
  · simp only [hc, if_pos]
    have : s.buffer.length + 1 - s.windowSize = 1 := by
      simp at hc; omega
    rw [this]
  · simp only [hc, if_neg, not_false_iff]
    have : s.buffer.length + 1 - s.windowSize = 0 := by
      simp at hc; omega
    rw [this, List.drop_zero]

theorem drop_append_drop {α : Type} (u v : List α) (d e : ℕ) (hd : d ≤ u.length) :
    ((u.drop d) ++ v).drop e = (u ++ v).drop (e + d) := by
  rw [← List.drop_append_of_le_length hd, List.drop_drop, Nat.add_comm]

theorem add_buffer_length_le (s : EARSmoother) (x : ℚ)
    (h : s.buffer.length ≤ s.windowSize) :
    (s.add x).2.buffer.length ≤ s.windowSize := by
  rw [add_buffer s x h]
  simp
  omega

/-- Ring-buffer characterisation: running any input list through the smoother
leaves exactly the within-capacity suffix of (old buffer ++ inputs). -/
theorem addAll_buffer (xs : List ℚ) (s : EARSmoother)
    (h : s.buffer.length ≤ s.windowSize) :
    (addAll s xs).buffer =
      (s.buffer ++ xs).drop (s.buffer.length + xs.length - s.windowSize) := by
  induction xs generalizing s with
  | nil =>
    rw [addAll_nil]
    simp only [List.append_nil, List.length_nil, Nat.add_zero]
    rw [Nat.sub_eq_zero_of_le h, List.drop_zero]
  | cons x xs ih =>
    rw [addAll_cons, ih _ (add_buffer_length_le s x h)]
    have hw : (s.add x).2.windowSize = s.windowSize := rfl
    rw [hw, add_buffer s x h]
    simp only [List.length_drop, List.length_append, List.length_singleton]
    rw [drop_append_drop _ _ _ _ (by simp)]
    simp only [List.append_assoc, List.singleton_append, List.length_cons]
    congr 1
    omega

/-- Buffer contents after a fresh run: the last `min (length, window)` inputs. -/
theorem addAll_buffer_fresh (n : ℕ) (xs : List ℚ) :
    (addAll (mkSmoother n) xs).buffer = xs.drop (xs.length - n) := by
  rw [addAll_buffer xs (mkSmoother n) (by simp [mkSmoother])]
  simp [mkSmoother]

theorem addAll_buffer_length_fresh (n : ℕ) (xs : List ℚ) :
    (addAll (mkSmoother n) xs).buffer.length = min xs.length n := by
  rw [addAll_buffer_fresh]
  simp
  omega

theorem add_fst_eq_mean_buffer (s : EARSmoother) (x : ℚ) :
    (s.add x).1 = mean (s.add x).2.buffer := rfl

theorem add_snd_eq_addAll_singleton (s : EARSmoother) (x : ℚ) :
    (s.add x).2 = addAll s [x] := rfl

/-- C7 counterexample. `EARSmoother.is_ready` uses Python floor division
`window_size // 2`: with the default window 5, the smoother reports ready
after only 2 pushes, while the ceiling claimed, `⌈5/2⌉ = 3` would require 3. -/
theorem claim_C7_counterexample :
    (addAll (mkSmoother 5) [3/10, 3/10]).is_ready = true ∧
    (addAll (mkSmoother 5) [3/10, 3/10]).buffer.length = 2 ∧
    ¬ ((5 + 1) / 2 ≤ (addAll (mkSmoother 5) [3/10, 3/10]).buffer.length) := by
  decide

/-- C7 (amended): for every window size N and push sequence, `is_ready()` is
true exactly when the buffer holds at least `⌊N/2⌋` samples (floor division) —
for the default N = 5, after 2 or more pushes. -/
theorem claim_C7 (N : ℕ) (xs : List ℚ) :
    (addAll (mkSmoother N) xs).is_ready = true ↔ N / 2 ≤ min xs.length N := by
  have hw : (addAll (mkSmoother N) xs).windowSize = N := addAll_windowSize _ _
  have hb := addAll_buffer_length_fresh N xs
  simp only [EARSmoother.is_ready, hw, hb, decide_eq_true_eq]

/-- C8: for every window size N ≥ 1 and any N+k pushes, the buffer holds
exactly the last N inputs (FIFO eviction), and the value returned by `add`
is the arithmetic mean of only the last `min(length, N)` inputs. -/
theorem claim_C8 (N k : ℕ) (xs : List ℚ) (hN : 1 ≤ N) (hlen : xs.length = N + k) :
    (addAll (mkSmoother N) xs).buffer.length = N ∧
    (addAll (mkSmoother N) xs).buffer = xs.drop k ∧
    ∀ (ys : List ℚ) (y : ℚ),
      ((ys ++ [y]).drop (ys.length + 1 - N)).length = min (ys.length + 1) N ∧
      ((addAll (mkSmoother N) ys).add y).1
        = mean ((ys ++ [y]).drop (ys.length + 1 - N)) := by
  refine ⟨?_, ?_, ?_⟩
  · rw [addAll_buffer_length_fresh, hlen]; omega
  · rw [addAll_buffer_fresh, hlen]
    congr 1
    omega
  · intro ys y
    constructor
    · simp
      omega
    · rw [add_fst_eq_mean_buffer, add_snd_eq_addAll_singleton, ← addAll_append,
        addAll_buffer_fresh]
      simp

/-- Witness for C8 at N = 2, k = 1, inputs [1, 2, 3]. -/
theorem claim_C8_witness :
    (addAll (mkSmoother 2) [1, 2, 3]).buffer = [2, 3] ∧
    ((addAll (mkSmoother 2) [1, 2]).add 3).1 = mean [2, 3] := by
  have h := claim_C8 2 1 [1, 2, 3] (by decide) (by decide)
  exact ⟨h.2.1, (h.2.2 [1, 2] 3).2⟩

/-! ## DrowsinessDetector state machine (`src/core/detector.py`)

Constants from `config/config.py`: `EAR_THRESHOLD = 0.25`, `CONSEC_FRAMES = 20`,
`SMOOTHING_WINDOW = 5`, `CALIBRATION_FRAMES = 90`, `PERCLOS_WINDOW = 300`,
`PERCLOS_THRESHOLD = 0.3`. -/

def EAR_THRESHOLD : ℚ := 1/4
def CONSEC_FRAMES : ℕ := 20
def SMOOTHING_WINDOW : ℕ := 5
def CALIBRATION_FRAMES : ℕ := 90
def PERCLOS_WINDOW : ℕ := 300
def PERCLOS_THRESHOLD : ℚ := 3/10

/-- Why the alarm fired this frame (the `reason` text drawn by `recv`). -/
inductive AlarmReason where
  | microSleep
  | fatigue
deriving DecidableEq

/-- Mutable state of `DrowsinessDetector` relevant to detection. -/
structure DetectorState where
  frameCount : ℕ
  drowsy : Bool
  earHistory : List ℚ
  isCalibrating : Bool
  calibrationFrames : ℕ
  calibrationData : List ℚ
  earThreshold : ℚ
  closedHistory : List Bool
deriving DecidableEq

/-- `DrowsinessDetector.__init__` detection state. -/
def initDetector : DetectorState :=
  { frameCount := 0, drowsy := false, earHistory := [],
    isCalibrating := true, calibrationFrames := 0, calibrationData := [],
    earThreshold := EAR_THRESHOLD, closedHistory := [] }

/-- `perclos = np.mean(closed_history) if len(closed_history) > 0 else 0`,
with the closed flags stored as 1/0. -/
def perclosOf (l : List Bool) : ℚ :=
  if 0 < l.length then (l.countP id : ℚ) / l.length else 0

/-- One landmark-bearing frame of `DrowsinessDetector.recv` (the per-face
branch), fed with the raw averaged EAR of the frame. Returns the new state and
the alarm reason drawn, if any. -/
def detectorStep (s : DetectorState) (rawEar : ℚ) : DetectorState × Option AlarmReason :=
  let hist := deqPush SMOOTHING_WINDOW s.earHistory rawEar
  let ear := mean hist
  if s.isCalibrating then
    let data := s.calibrationData ++ [ear]
    let frames := s.calibrationFrames + 1
    if CALIBRATION_FRAMES ≤ frames then
      ({ s with earHistory := hist, calibrationData := data,
                calibrationFrames := frames,
                earThreshold := mean data * (8/10), isCalibrating := false },
       none)
    else
      ({ s with earHistory := hist, calibrationData := data,
                calibrationFrames := frames },
       none)
  else
    let closed := deqPush PERCLOS_WINDOW s.closedHistory (decide (ear < s.earThreshold))
    let perclos := perclosOf closed
    let fc := if ear < s.earThreshold then s.frameCount + 1 else 0
    if CONSEC_FRAMES ≤ fc ∨ PERCLOS_THRESHOLD < perclos then
      ({ s with earHistory := hist, closedHistory := closed, frameCount := fc,
                drowsy := true },
       some (if CONSEC_FRAMES ≤ fc then .microSleep else .fatigue))
    else
      ({ s with earHistory := hist, closedHistory := closed, frameCount := fc,
                drowsy := if ear < s.earThreshold then s.drowsy else false },
       none)

/-- Run the detector over a sequence of frames, keeping the state. -/
def runDetector (s : DetectorState) (xs : List ℚ) : DetectorState :=
  xs.foldl (fun t x => (detectorStep t x).1) s

/-- The smoothed EAR of the current frame: mean of the 5-deep EAR deque after
appending the raw EAR of the frame. -/
def smoothedEar (s : DetectorState) (e : ℚ) : ℚ :=
  mean (deqPush SMOOTHING_WINDOW s.earHistory e)

/-- A calibrating state as produced by 89 identical calibration frames: the
next landmark frame is the 90th calibration sample. -/
def calibReadyState : DetectorState :=
  { frameCount := 0, drowsy := false, earHistory := List.replicate 5 (3/10),
    isCalibrating := true, calibrationFrames := 89,
    calibrationData := List.replicate 89 (3/10),
    earThreshold := EAR_THRESHOLD, closedHistory := [] }

theorem smoothedEar_calibReady : smoothedEar calibReadyState (3/10) = 3/10 := by
  rw [smoothedEar, calibReadyState, deqPush]
  simp only [SMOOTHING_WINDOW]
  rw [← List.replicate_succ', List.length_replicate, List.replicate_succ,
    show (6 - 5 : ℕ) = 1 from rfl, List.drop_succ_cons, List.drop_zero]
  rw [mean, List.sum_replicate, List.length_replicate]
  norm_num

/-- C1 counterexample: taking the 90th calibration sample does set
`is_calibrating = False` and `ear_threshold = mean(samples) * 0.8 = 0.24`,
but `calibration_data` is retained (90 entries), not discarded —
`DrowsinessDetector.recv` never clears the buffer. -/
theorem claim_C1_counterexample :
    (detectorStep calibReadyState (3/10)).1.isCalibrating = false ∧
    (detectorStep calibReadyState (3/10)).1.earThreshold = 6/25 ∧
    ¬ ((detectorStep calibReadyState (3/10)).1.calibrationData = []) := by
  have hth : mean (List.replicate 89 (3/10 : ℚ) ++ [3/10]) * (8/10) = 6/25 := by
    rw [← List.replicate_succ']
    rw [mean, List.sum_replicate, List.length_replicate]
    norm_num
  have hme := smoothedEar_calibReady
  rw [smoothedEar] at hme
  unfold detectorStep
  rw [show calibReadyState.isCalibrating = true from rfl]
  simp only [if_true, CALIBRATION_FRAMES]
  rw [show calibReadyState.calibrationFrames = 89 from rfl]
  simp only [show (90 ≤ 89 + 1) = True by simp, if_true]
  refine ⟨trivial, ?_, by simp⟩
  rw [hme, show calibReadyState.calibrationData = List.replicate 89 (3/10) from rfl]
  exact hth

/-- C1 (amended): once the number of calibration samples reaches the
configured duration (90 frames), `recv` computes `baseline = mean(samples)`,
sets `ear_threshold = baseline * 0.8`, transitions one-way to ACTIVE — but
retains the sample buffer rather than discarding it. Before that point it
keeps collecting, and an ACTIVE state never re-enters calibration. -/
theorem claim_C1 (s : DetectorState) (e : ℚ) (hc : s.isCalibrating = true) :
    (CALIBRATION_FRAMES ≤ s.calibrationFrames + 1 →
      (detectorStep s e).1.isCalibrating = false ∧
      (detectorStep s e).1.earThreshold
        = mean (s.calibrationData ++ [smoothedEar s e]) * (8/10) ∧
      (detectorStep s e).1.calibrationData
        = s.calibrationData ++ [smoothedEar s e] ∧
      ¬ ((detectorStep s e).1.calibrationData = [])) ∧
    (s.calibrationFrames + 1 < CALIBRATION_FRAMES →
      (detectorStep s e).1.isCalibrating = true ∧
      (detectorStep s e).1.calibrationFrames = s.calibrationFrames + 1 ∧
      (detectorStep s e).1.calibrationData
        = s.calibrationData ++ [smoothedEar s e] ∧
      (detectorStep s e).1.earThreshold = s.earThreshold) ∧
    (∀ t : DetectorState, t.isCalibrating = false →
      (detectorStep t e).1.isCalibrating = false) := by
  refine ⟨?_, ?_, ?_⟩
  · intro hfull
    unfold detectorStep
    rw [hc]
    simp only [if_true, hfull, smoothedEar]
    simp
  · intro hpart
    unfold detectorStep
    rw [hc]
    simp only [if_true, smoothedEar]
    rw [if_neg (by omega)]
    simp
  · intro t ht
    unfold detectorStep
    rw [ht]
    simp only [Bool.false_eq_true, if_false]
    by_cases halert : CONSEC_FRAMES ≤ (if
        mean (deqPush SMOOTHING_WINDOW t.earHistory e) < t.earThreshold
        then t.frameCount + 1 else 0) ∨
        PERCLOS_THRESHOLD < perclosOf (deqPush PERCLOS_WINDOW t.closedHistory
          (decide (mean (deqPush SMOOTHING_WINDOW t.earHistory e) < t.earThreshold)))
    · rw [if_pos halert]
    · rw [if_neg halert]

/-- Witness for C1 at the state holding 89 calibration samples. -/
theorem claim_C1_witness :
    (detectorStep calibReadyState (3/10)).1.isCalibrating = false ∧
    (detectorStep calibReadyState (3/10)).1.calibrationData
      = calibReadyState.calibrationData ++ [smoothedEar calibReadyState (3/10)] := by
  have h := (claim_C1 calibReadyState (3/10) rfl).1 (by decide)
  exact ⟨h.1, h.2.2.1⟩

/-- The stored closed/open flag of the current ACTIVE frame. -/
def closedFlag (s : DetectorState) (e : ℚ) : Bool :=
  decide (smoothedEar s e < s.earThreshold)

/-- The consecutive-closed counter after the current ACTIVE frame. -/
def nextFrameCount (s : DetectorState) (e : ℚ) : ℕ :=
  if smoothedEar s e < s.earThreshold then s.frameCount + 1 else 0

/-- The PERCLOS ring buffer after the current ACTIVE frame. -/
def nextClosedHistory (s : DetectorState) (e : ℚ) : List Bool :=
  deqPush PERCLOS_WINDOW s.closedHistory (closedFlag s e)

theorem alarm_shape_spec (fc : ℕ) (p : ℚ) (a b : DetectorState) :
    (¬ ((if CONSEC_FRAMES ≤ fc ∨ PERCLOS_THRESHOLD < p then
          (a, some (if CONSEC_FRAMES ≤ fc then AlarmReason.microSleep
                    else AlarmReason.fatigue))
        else (b, none)).2 = none) ↔
      (CONSEC_FRAMES ≤ fc ∨ PERCLOS_THRESHOLD < p)) ∧
    ((if CONSEC_FRAMES ≤ fc ∨ PERCLOS_THRESHOLD < p then
          (a, some (if CONSEC_FRAMES ≤ fc then AlarmReason.microSleep
                    else AlarmReason.fatigue))
        else (b, none)).2 = some AlarmReason.microSleep ↔
      CONSEC_FRAMES ≤ fc) ∧
    ((if CONSEC_FRAMES ≤ fc ∨ PERCLOS_THRESHOLD < p then
          (a, some (if CONSEC_FRAMES ≤ fc then AlarmReason.microSleep
                    else AlarmReason.fatigue))
        else (b, none)).2 = some AlarmReason.fatigue ↔
      (fc < CONSEC_FRAMES ∧ PERCLOS_THRESHOLD < p)) := by
  by_cases hA : CONSEC_FRAMES ≤ fc ∨ PERCLOS_THRESHOLD < p
  · rw [if_pos hA]
    by_cases hm : CONSEC_FRAMES ≤ fc
    · rw [if_pos hm]
      exact ⟨iff_of_true (by simp) hA, iff_of_true rfl hm,
        iff_of_false (by simp) (fun hab => absurd hab.1 (not_lt.mpr hm))⟩
    · rw [if_neg hm]
      exact ⟨iff_of_true (by simp) hA, iff_of_false (by simp) hm,
        iff_of_true rfl ⟨Nat.not_le.mp hm, hA.resolve_left hm⟩⟩
  · rw [if_neg hA]
    exact ⟨iff_of_false (by simp) hA,
      iff_of_false (by simp) (fun hm => hA (Or.inl hm)),
      iff_of_false (by simp) (fun hab => hA (Or.inr hab.2))⟩

set_option maxRecDepth 4000 in
/-- C2: in the ACTIVE state, a frame is classified closed iff the smoothed EAR
is strictly below the calibrated threshold; a closed frame increments the
consecutive-closed counter, an open frame resets it to 0; the frame alarm is
non-NONE iff the counter reaches `CONSEC_FRAMES` (micro-sleep) or the PERCLOS
over the rolling window exceeds `PERCLOS_THRESHOLD` (fatigue), with
micro-sleep taking precedence when both hold. -/
theorem claim_C2 (s : DetectorState) (e : ℚ) (h : s.isCalibrating = false) :
    ((detectorStep s e).1.frameCount = nextFrameCount s e) ∧
    ((detectorStep s e).1.closedHistory = nextClosedHistory s e) ∧
    (¬ ((detectorStep s e).2 = none) ↔
       (CONSEC_FRAMES ≤ nextFrameCount s e ∨
        PERCLOS_THRESHOLD < perclosOf (nextClosedHistory s e))) ∧
    ((detectorStep s e).2 = some AlarmReason.microSleep ↔
       CONSEC_FRAMES ≤ nextFrameCount s e) ∧
    ((detectorStep s e).2 = some AlarmReason.fatigue ↔
       (nextFrameCount s e < CONSEC_FRAMES ∧
        PERCLOS_THRESHOLD < perclosOf (nextClosedHistory s e))) := by
  unfold detectorStep
  rw [h]
  simp only [Bool.false_eq_true, if_false, nextFrameCount, nextClosedHistory,
    closedFlag, smoothedEar]
  refine ⟨?_, ?_, ?_, ?_, ?_⟩
  · split <;> split <;> rfl
  · split <;> split <;> rfl
  · exact (alarm_shape_spec _ _ _ _).1
  · exact (alarm_shape_spec _ _ _ _).2.1
  · exact (alarm_shape_spec _ _ _ _).2.2

/-- An ACTIVE state one closed frame short of the micro-sleep trigger. -/
def activeState : DetectorState :=
  { frameCount := 19, drowsy := false, earHistory := [],
    isCalibrating := false, calibrationFrames := 90,
    calibrationData := [], earThreshold := 6/25, closedHistory := [] }

/-- Witness for C2: one more closed frame (EAR 0.15 < threshold 0.24) lifts
`frame_count` to 20 and fires the micro-sleep alarm. -/
theorem claim_C2_witness :
    (detectorStep activeState (3/20)).2 = some AlarmReason.microSleep := by
  have h := claim_C2 activeState (3/20) rfl
  apply h.2.2.2.1.mpr
  have hclosed : smoothedEar activeState (3/20) < activeState.earThreshold := by
    simp only [smoothedEar, activeState, deqPush, SMOOTHING_WINDOW, mean]
    norm_num
  rw [nextFrameCount, if_pos hclosed]
  decide

/-! ## VehicleDynamicsAnalyzer.classify_risk_level
(`src/core/vehicle_dynamics.py`, lines 334-369) -/

/-- The four risk levels returned by `classify_risk_level`. -/
inductive RiskLevel where
  | NORMAL
  | POSSIBLE_IMPAIRMENT
  | HIGH_RISK
  | CRITICAL
deriving DecidableEq

/-- Analyzer thresholds (`VehicleDynamicsAnalyzer.__init__`). -/
structure VDConfig where
  steering_entropy_threshold : ℚ
  speed_var_threshold : ℚ
  lane_dev_threshold : ℚ

/-- Constructor defaults: entropy 0.45, speed-var 15.0, lane-dev 0.5. -/
def defaultVDConfig : VDConfig := ⟨45/100, 15, 1/2⟩

/-- `VehicleDynamicsAnalyzer.classify_risk_level`, first matching rule wins. -/
def classify_risk_level (cfg : VDConfig) (risk_score steering_entropy
    speed_var lane_dev : ℚ) : RiskLevel :=
  if steering_entropy > cfg.steering_entropy_threshold * (3/2) ∧
      (speed_var > cfg.speed_var_threshold ∨ lane_dev > cfg.lane_dev_threshold) then
    .CRITICAL
  else if steering_entropy > cfg.steering_entropy_threshold then
    if speed_var > cfg.speed_var_threshold ∨ lane_dev > cfg.lane_dev_threshold then
      .HIGH_RISK
    else
      .POSSIBLE_IMPAIRMENT
  else if risk_score > 3/5 then
    .POSSIBLE_IMPAIRMENT
  else
    .NORMAL

/-- C3: the risk-level classifier returns CRITICAL iff entropy > 1.5 times the
entropy threshold and a secondary metric exceeds its threshold; otherwise
HIGH_RISK iff entropy > threshold and a secondary metric exceeds; otherwise
POSSIBLE_IMPAIRMENT iff entropy alone exceeds or the composite score > 0.6;
otherwise NORMAL. -/
theorem claim_C3 (cfg : VDConfig) (risk_score steering_entropy speed_var lane_dev : ℚ) :
    (classify_risk_level cfg risk_score steering_entropy speed_var lane_dev
        = .CRITICAL ↔
      (steering_entropy > cfg.steering_entropy_threshold * (3/2) ∧
       (speed_var > cfg.speed_var_threshold ∨ lane_dev > cfg.lane_dev_threshold))) ∧
    (classify_risk_level cfg risk_score steering_entropy speed_var lane_dev
        = .HIGH_RISK ↔
      (¬ (steering_entropy > cfg.steering_entropy_threshold * (3/2) ∧
          (speed_var > cfg.speed_var_threshold ∨ lane_dev > cfg.lane_dev_threshold)) ∧
       steering_entropy > cfg.steering_entropy_threshold ∧
       (speed_var > cfg.speed_var_threshold ∨ lane_dev > cfg.lane_dev_threshold))) ∧
    (classify_risk_level cfg risk_score steering_entropy speed_var lane_dev
        = .POSSIBLE_IMPAIRMENT ↔
      (¬ (steering_entropy > cfg.steering_entropy_threshold * (3/2) ∧
          (speed_var > cfg.speed_var_threshold ∨ lane_dev > cfg.lane_dev_threshold)) ∧
       ((steering_entropy > cfg.steering_entropy_threshold ∧
         ¬ (speed_var > cfg.speed_var_threshold ∨ lane_dev > cfg.lane_dev_threshold)) ∨
        (¬ steering_entropy > cfg.steering_entropy_threshold ∧ risk_score > 3/5)))) ∧
    (classify_risk_level cfg risk_score steering_entropy speed_var lane_dev
        = .NORMAL ↔
      (¬ (steering_entropy > cfg.steering_entropy_threshold * (3/2) ∧
          (speed_var > cfg.speed_var_threshold ∨ lane_dev > cfg.lane_dev_threshold)) ∧
       ¬ steering_entropy > cfg.steering_entropy_threshold ∧
       ¬ risk_score > 3/5)) := by
  unfold classify_risk_level
  split
  next h1 =>
    simp only [h1]
    refine ⟨by simp, ?_, ?_, ?_⟩ <;> simp [h1]
  next h1 =>
    split
    next h2 =>
      split
      next h3 => simp_all
      next h3 => simp_all
    next h2 =>
      split
      next h4 => simp_all
      next h4 => simp_all

/-! ## MultiModalDetector._weighted_fusion (`src/core/fusion.py`, lines 291-304) -/

/-- `np.clip(x, 0.0, 1.0)`. -/
def clip01 (x : ℚ) : ℚ := min (max x 0) 1

/-- `MultiModalDetector._weighted_fusion` with the fixed weights
`{visual: 0.6, vehicle: 0.4}`. -/
def weighted_fusion (visual_score vehicle_score : ℚ) : ℚ :=
  if visual_score = 0 ∧ vehicle_score > 0 then vehicle_score
  else if vehicle_score = 0 ∧ visual_score > 0 then visual_score
  else clip01 ((6/10) * visual_score + (4/10) * vehicle_score)

/-- C4: the weighted fusion strategy returns the positive score unchanged when
exactly one modality score is zero and the other positive; when both are
positive it returns `0.6 * visual + 0.4 * vehicle` clipped to [0, 1]. -/
theorem claim_C4 (v w : ℚ) :
    (v = 0 → w > 0 → weighted_fusion v w = w) ∧
    (w = 0 → v > 0 → weighted_fusion v w = v) ∧
    (v > 0 → w > 0 → weighted_fusion v w = clip01 ((6/10) * v + (4/10) * w)) := by
  refine ⟨?_, ?_, ?_⟩
  · intro hv hw
    rw [weighted_fusion, if_pos ⟨hv, hw⟩]
  · intro hw hv
    rw [weighted_fusion, if_neg (by rintro ⟨h0, _⟩; rw [h0] at hv; exact lt_irrefl 0 hv),
      if_pos ⟨hw, hv⟩]
  · intro hv hw
    rw [weighted_fusion,
      if_neg (by rintro ⟨h0, _⟩; rw [h0] at hv; exact lt_irrefl 0 hv),
      if_neg (by rintro ⟨h0, _⟩; rw [h0] at hw; exact lt_irrefl 0 hw)]

/-- Witness for C4 at (0.5, 0.25): both modalities positive. -/
theorem claim_C4_witness :
    weighted_fusion (1/2) (1/4) = clip01 ((6/10) * (1/2) + (4/10) * (1/4)) :=
  (claim_C4 (1/2) (1/4)).2.2 (by norm_num) (by norm_num)

/-! ## AlertSystem throttle/escalation (`src/core/alerts.py`)

`trigger_alert` (lines 127-171), `_should_trigger_alert` (173-179),
`reset` (279-285). Wall-clock instants (`datetime.now()`) are passed in as
rational seconds. -/

/-- The throttling fields of `AlertConfig`:
`min_interval_sec = 5.0`, `escalation_threshold = 3`,
`enable_escalation = True`. -/
structure ThrottleConfig where
  min_interval_sec : ℚ
  escalation_threshold : ℕ
  enable_escalation : Bool

/-- `AlertConfig()` defaults. -/
def defaultThrottleConfig : ThrottleConfig := ⟨5, 3, true⟩

/-- The alert-throttle state: `_last_alert_time`, `_alert_count`,
`_escalation_level`. -/
structure ThrottleState where
  last_alert_time : Option ℚ
  alert_count : ℕ
  escalation_level : ℕ
deriving DecidableEq

/-- `AlertSystem.__init__` state. -/
def initThrottleState : ThrottleState := ⟨none, 0, 0⟩

/-- `AlertSystem._should_trigger_alert` evaluated at instant `now`. -/
def should_trigger_alert (cfg : ThrottleConfig) (s : ThrottleState) (now : ℚ) : Bool :=
  match s.last_alert_time with
  | none => true
  | some t => decide (cfg.min_interval_sec ≤ now - t)

/-- `AlertSystem.trigger_alert` at instant `now`: returns whether the alert
was accepted (True) or throttled (False), with the updated state. -/
def trigger_alert (cfg : ThrottleConfig) (s : ThrottleState) (now : ℚ) :
    Bool × ThrottleState :=
  if should_trigger_alert cfg s now then
    let count := s.alert_count + 1
    let lvl := if cfg.enable_escalation = true ∧ count % cfg.escalation_threshold = 0
               then s.escalation_level + 1 else s.escalation_level
    (true, ⟨some now, count, lvl⟩)
  else
    (false, s)

/-- `AlertSystem.reset`. -/
def throttle_reset (_s : ThrottleState) : ThrottleState := ⟨none, 0, 0⟩

/-- Run `trigger_alert` over a list of instants, counting accepted alerts. -/
def run_triggers (cfg : ThrottleConfig) (p : ℕ × ThrottleState) (ts : List ℚ) :
    ℕ × ThrottleState :=
  ts.foldl (fun q t =>
    let r := trigger_alert cfg q.2 t
    (q.1 + (if r.1 then 1 else 0), r.2)) p

theorem trigger_fst (cfg : ThrottleConfig) (s : ThrottleState) (now : ℚ) :
    (trigger_alert cfg s now).1 = should_trigger_alert cfg s now := by
  unfold trigger_alert
  by_cases h : should_trigger_alert cfg s now = true
  · rw [if_pos h, h]
  · rw [Bool.not_eq_true] at h
    rw [h]
    simp

theorem trigger_accepted_state (cfg : ThrottleConfig) (s : ThrottleState) (now : ℚ)
    (h : (trigger_alert cfg s now).1 = true) :
    (trigger_alert cfg s now).2 =
      ⟨some now, s.alert_count + 1,
       if cfg.enable_escalation = true ∧ (s.alert_count + 1) % cfg.escalation_threshold = 0
       then s.escalation_level + 1 else s.escalation_level⟩ := by
  unfold trigger_alert at h ⊢
  by_cases hs : should_trigger_alert cfg s now = true
  · rw [if_pos hs]
  · rw [Bool.not_eq_true] at hs
    rw [hs] at h
    simp at h

theorem trigger_rejected_state (cfg : ThrottleConfig) (s : ThrottleState) (now : ℚ)
    (h : (trigger_alert cfg s now).1 = false) :
    (trigger_alert cfg s now).2 = s := by
  unfold trigger_alert at h ⊢
  by_cases hs : should_trigger_alert cfg s now = true
  · rw [hs] at h
    simp at h
  · rw [Bool.not_eq_true] at hs
    rw [hs] at h ⊢
    simp

/-- The escalation bookkeeping invariant: the escalation level is the number
of completed escalation periods among the accepted alerts. -/
def throttleInv (cfg : ThrottleConfig) (s : ThrottleState) : Prop :=
  s.escalation_level = s.alert_count / cfg.escalation_threshold

theorem trigger_preserves_inv (cfg : ThrottleConfig)
    (hesc : cfg.enable_escalation = true)
    (s : ThrottleState) (now : ℚ) (hinv : throttleInv cfg s) :
    throttleInv cfg (trigger_alert cfg s now).2 := by
  by_cases h : (trigger_alert cfg s now).1 = true
  · rw [throttleInv, trigger_accepted_state cfg s now h]
    simp only [hesc, true_and]
    by_cases hd : (s.alert_count + 1) % cfg.escalation_threshold = 0
    · rw [if_pos hd]
      have := Nat.succ_div s.alert_count cfg.escalation_threshold
      rw [if_pos ((Nat.dvd_iff_mod_eq_zero).mpr hd)] at this
      rw [hinv.symm] at this
      simpa using this.symm
    · rw [if_neg hd]
      have := Nat.succ_div s.alert_count cfg.escalation_threshold
      rw [if_neg (fun hdvd => hd ((Nat.dvd_iff_mod_eq_zero).mp hdvd))] at this
      rw [hinv.symm] at this
      simpa using this.symm
  · rw [Bool.not_eq_true] at h
    rw [throttleInv, trigger_rejected_state cfg s now h]
    exact hinv

theorem run_triggers_inv (cfg : ThrottleConfig)
    (hesc : cfg.enable_escalation = true) (ts : List ℚ) :
    ∀ (n : ℕ) (s : ThrottleState), throttleInv cfg s →
      throttleInv cfg (run_triggers cfg (n, s) ts).2 ∧
      (run_triggers cfg (n, s) ts).2.alert_count + n
        = s.alert_count + (run_triggers cfg (n, s) ts).1 := by
  induction ts with
  | nil => intro n s hinv; exact ⟨hinv, by simp [run_triggers]⟩
  | cons t ts ih =>
    intro n s hinv
    have hstep : run_triggers cfg (n, s) (t :: ts)
        = run_triggers cfg (n + (if (trigger_alert cfg s t).1 then 1 else 0),
            (trigger_alert cfg s t).2) ts := rfl
    rw [hstep]
    have hinv2 := trigger_preserves_inv cfg hesc s t hinv
    obtain ⟨h1, h2⟩ := ih _ _ hinv2
    refine ⟨h1, ?_⟩
    by_cases hb : (trigger_alert cfg s t).1 = true
    · rw [trigger_accepted_state cfg s t hb] at h2 ⊢
      rw [hb] at h2 ⊢
      simp only [if_true] at h2 ⊢
      omega
    · rw [Bool.not_eq_true] at hb
      rw [trigger_rejected_state cfg s t hb] at h2 ⊢
      rw [hb] at h2 ⊢
      simp only [Bool.false_eq_true, if_false] at h2 ⊢
      omega

/-- C5: within `min_interval` of an accepted alert a second trigger is
suppressed; an accepted trigger increments the count and raises the
escalation level exactly when the count completes an escalation period (so,
from the initial state, the level is always acceptedCount / threshold — one
increment per `escalation_threshold` accepted alerts); a rejected trigger
leaves the state untouched; the escalation level never decreases under
`trigger_alert`; and `reset()` clears all three fields at once. -/
theorem claim_C5 (cfg : ThrottleConfig)
    (hesc : cfg.enable_escalation = true) (_hk : 0 < cfg.escalation_threshold) :
    (∀ (s : ThrottleState) (t1 t2 : ℚ), t2 - t1 < cfg.min_interval_sec →
      (trigger_alert cfg s t1).1 = true →
      (trigger_alert cfg (trigger_alert cfg s t1).2 t2).1 = false) ∧
    (∀ (s : ThrottleState) (now : ℚ), (trigger_alert cfg s now).1 = true →
      (trigger_alert cfg s now).2.alert_count = s.alert_count + 1 ∧
      (trigger_alert cfg s now).2.escalation_level =
        (if (s.alert_count + 1) % cfg.escalation_threshold = 0
         then s.escalation_level + 1 else s.escalation_level)) ∧
    (∀ (s : ThrottleState) (now : ℚ), (trigger_alert cfg s now).1 = false →
      (trigger_alert cfg s now).2 = s) ∧
    (∀ (s : ThrottleState) (now : ℚ),
      s.escalation_level ≤ (trigger_alert cfg s now).2.escalation_level) ∧
    (∀ (ts : List ℚ),
      (run_triggers cfg (0, initThrottleState) ts).2.escalation_level
        = (run_triggers cfg (0, initThrottleState) ts).1
            / cfg.escalation_threshold) ∧
    (∀ (s : ThrottleState), throttle_reset s
        = ⟨none, 0, 0⟩) := by
  refine ⟨?_, ?_, ?_, ?_, ?_, fun s => rfl⟩
  · intro s t1 t2 hlt h1
    have hst := trigger_accepted_state cfg s t1 h1
    rw [trigger_fst, hst]
    simp only [should_trigger_alert]
    exact decide_eq_false (not_le.mpr hlt)
  · intro s now h
    rw [trigger_accepted_state cfg s now h]
    simp [hesc]
  · intro s now h
    exact trigger_rejected_state cfg s now h
  · intro s now
    by_cases h : (trigger_alert cfg s now).1 = true
    · rw [trigger_accepted_state cfg s now h]
      split <;> simp
    · rw [Bool.not_eq_true] at h
      rw [trigger_rejected_state cfg s now h]
  · intro ts
    obtain ⟨h1, h2⟩ := run_triggers_inv cfg hesc ts 0 initThrottleState
      (by simp [throttleInv, initThrottleState])
    rw [throttleInv] at h1
    rw [h1]
    congr 1
    simpa [initThrottleState] using h2

/-- Witness for C5 at the default configuration: of two triggers 1 s apart
only the first is accepted, and after three accepted alerts the escalation
level is 1 = 3 / 3. -/
theorem claim_C5_witness :
    (trigger_alert defaultThrottleConfig
      (trigger_alert defaultThrottleConfig initThrottleState 0).2 1).1 = false ∧
    (run_triggers defaultThrottleConfig (0, initThrottleState)
      [0, 6, 12]).2.escalation_level
        = (run_triggers defaultThrottleConfig (0, initThrottleState)
            [0, 6, 12]).1 / 3 := by
  have h := claim_C5 defaultThrottleConfig rfl (by decide)
  refine ⟨h.1 initThrottleState 0 1 (by norm_num [defaultThrottleConfig]) (by decide), ?_⟩
  exact h.2.2.2.2.1 [0, 6, 12]

/-! ## AdvancedAlertSystem deduplication (`src/utils/alert_system.py`)

`should_suppress_alert` (lines 676-689) and `create_alert` (691-737).
The dedup hash is `sha256(f"{driver_state}_{severity}_{int(confidence*100)}")`:
content equality is hash equality, so the hash is modelled by the content
triple itself (the driver-state string by an identifier). -/

/-- Alert severity values (`AlertSeverity`). -/
inductive Severity where
  | LOW
  | MEDIUM
  | HIGH
  | CRITICAL
deriving DecidableEq

/-- `alert_cooldown` seconds per severity: LOW 300, MEDIUM 120, HIGH 30,
CRITICAL 0. -/
def alert_cooldown : Severity → ℚ
  | .LOW => 300
  | .MEDIUM => 120
  | .HIGH => 30
  | .CRITICAL => 0

/-- The dedup-relevant content of an alert: `int(confidence*100)`, the
driver-state string (as an identifier) and the severity — exactly the fields
hashed in `AlertData.__post_init__`. -/
structure AlertContent where
  confTimes100 : ℤ
  driver_state : ℕ
  severity : Severity
deriving DecidableEq

/-- The dedup/suppression state of `AdvancedAlertSystem`: the unbounded
`alert_hashes` set (as a list), the `recent_alerts` deque of capacity 100,
and `last_alert_times` per severity (`dict.get(severity, 0)` default 0). -/
structure AdvAlertState where
  alert_hashes : List AlertContent
  recent_alerts : List AlertContent
  last_alert_times : Severity → ℚ

/-- `AdvancedAlertSystem.__init__` suppression state. -/
def initAdvAlertState : AdvAlertState := ⟨[], [], fun _ => 0⟩

/-- `AdvancedAlertSystem.should_suppress_alert`: suppress on a dedup-hash hit
or within the per-severity cooldown. -/
def should_suppress_alert (s : AdvAlertState) (c : AlertContent) (now : ℚ) : Prop :=
  c ∈ s.alert_hashes ∨
    now - s.last_alert_times c.severity < alert_cooldown c.severity

instance (s : AdvAlertState) (c : AlertContent) (now : ℚ) :
    Decidable (should_suppress_alert s c now) := by
  unfold should_suppress_alert
  infer_instance

/-- `AdvancedAlertSystem.create_alert` restricted to its suppression
bookkeeping: returns the created alert (None when suppressed) and the updated
tracking state (`alert_hashes.add`, `recent_alerts.append` into the
100-deque, `last_alert_times[severity] = now`). -/
def create_alert (s : AdvAlertState) (c : AlertContent) (now : ℚ) :
    Option AlertContent × AdvAlertState :=
  if should_suppress_alert s c now then (none, s)
  else
    (some c,
     { alert_hashes := c :: s.alert_hashes,
       recent_alerts := deqPush 100 s.recent_alerts c,
       last_alert_times := fun sev =>
         if sev = c.severity then now else s.last_alert_times sev })

/-- Run `create_alert` over a list of (content, instant) calls. -/
def run_create_alerts (s : AdvAlertState) (calls : List (AlertContent × ℚ)) :
    AdvAlertState :=
  calls.foldl (fun t p => (create_alert t p.1 p.2).2) s

theorem run_create_append (s : AdvAlertState) (l1 l2 : List (AlertContent × ℚ)) :
    run_create_alerts s (l1 ++ l2)
      = run_create_alerts (run_create_alerts s l1) l2 := by
  simp [run_create_alerts, List.foldl_append]

/-- The i-th distinct CRITICAL alert content. -/
def critContent (i : ℕ) : AlertContent := ⟨(i : ℤ), 0, .CRITICAL⟩

/-- n distinct CRITICAL alerts (cooldown 0) all raised at instant 0. -/
def critCalls (n : ℕ) : List (AlertContent × ℚ) :=
  (List.range n).map (fun i => (critContent i, 0))

theorem critRun (n : ℕ) :
    (run_create_alerts initAdvAlertState (critCalls n)).alert_hashes
      = ((List.range n).map critContent).reverse ∧
    (run_create_alerts initAdvAlertState (critCalls n)).recent_alerts
      = ((List.range n).map critContent).drop (n - 100) ∧
    (∀ sev, (run_create_alerts initAdvAlertState (critCalls n)).last_alert_times
      sev = 0) := by
  induction n with
  | zero => exact ⟨rfl, rfl, fun _ => rfl⟩
  | succ n ih =>
    obtain ⟨ih1, ih2, ih3⟩ := ih
    have hcalls : critCalls (n+1) = critCalls n ++ [(critContent n, 0)] := by
      rw [critCalls, List.range_succ, List.map_append]
      rfl
    rw [hcalls, run_create_append]
    have hnot : ¬ should_suppress_alert
        (run_create_alerts initAdvAlertState (critCalls n)) (critContent n) 0 := by
      rw [should_suppress_alert]
      push_neg
      constructor
      · rw [ih1]
        simp only [List.mem_reverse, List.mem_map, List.mem_range, critContent,
          AlertContent.mk.injEq, not_exists, not_and]
        intro i hi
        intro hcast
        omega
      · rw [ih3 (critContent n).severity]
        norm_num [alert_cooldown, critContent]
    have hstep : run_create_alerts (run_create_alerts initAdvAlertState (critCalls n))
        [(critContent n, 0)]
        = (create_alert (run_create_alerts initAdvAlertState (critCalls n))
            (critContent n) 0).2 := rfl
    rw [hstep, create_alert, if_neg hnot]
    refine ⟨?_, ?_, ?_⟩
    · simp only
      rw [ih1, List.range_succ, List.map_append, List.reverse_append]
      rfl
    · simp only
      rw [ih2, List.range_succ, List.map_append, deqPush]
      simp only [List.length_append, List.length_drop, List.length_map,
        List.length_range, List.length_singleton]
      rw [drop_append_drop _ _ _ _ (by simp)]
      congr 1
      omega
    · intro sev
      simp only
      by_cases hs : sev = (critContent n).severity
      · rw [if_pos hs]
      · rw [if_neg hs]
        exact ih3 sev

/-- The state after 101 accepted CRITICAL alerts. -/
def advFullState : AdvAlertState :=
  run_create_alerts initAdvAlertState (critCalls 101)

/-- C6 counterexample: after 101 accepted alerts, re-triggering the first
exact content of the first alert is suppressed by `create_alert` even though that content
is no longer among the last 100 accepted alerts and no cooldown applies —
the dedup set `alert_hashes` is unbounded; the claimed window of the last 100
accepted alerts is not what is consulted. -/
theorem claim_C6_counterexample :
    (¬ (critContent 0 ∈ advFullState.recent_alerts)) ∧
    advFullState.recent_alerts.length = 100 ∧
    (¬ ((101 : ℚ) - advFullState.last_alert_times (critContent 0).severity
        < alert_cooldown (critContent 0).severity)) ∧
    (create_alert advFullState (critContent 0) 101).1 = none := by
  obtain ⟨h1, h2, h3⟩ := critRun 101
  rw [advFullState]
  refine ⟨?_, ?_, ?_, ?_⟩
  · rw [h2]
    have hd : ((List.range 101).map critContent).drop (101 - 100)
        = (List.range 100).map (fun i => critContent (i+1)) := by
      rw [List.range_succ_eq_map]
      simp [List.map_map, Function.comp_def]
    rw [hd]
    simp only [List.mem_map, List.mem_range, critContent, AlertContent.mk.injEq,
      not_exists, not_and]
    intro i hi hcast
    omega
  · rw [h2]
    simp
  · rw [h3]
    norm_num [alert_cooldown, critContent]
  · rw [create_alert, if_pos ?_]
    apply Or.inl
    rw [h1]
    simp only [List.mem_reverse, List.mem_map, List.mem_range]
    exact ⟨0, by omega, rfl⟩

/-- C6 (amended): a trigger is suppressed by `create_alert` exactly when its
content repeats ANY previously accepted alert (the unbounded `alert_hashes`
set) or falls in the per-severity cooldown; since the 100-deep
`recent_alerts` window is always a subset of `alert_hashes`, a repeat of one
of the last 100 accepted alerts in particular is suppressed rather than
queued; an accepted alert is recorded in both structures. -/
theorem claim_C6 (s : AdvAlertState) (c : AlertContent) (now : ℚ) :
    ((create_alert s c now).1 = none ↔
      (c ∈ s.alert_hashes ∨
       now - s.last_alert_times c.severity < alert_cooldown c.severity)) ∧
    (s.recent_alerts ⊆ s.alert_hashes →
      (create_alert s c now).2.recent_alerts
        ⊆ (create_alert s c now).2.alert_hashes) ∧
    (s.recent_alerts ⊆ s.alert_hashes → c ∈ s.recent_alerts →
      (create_alert s c now).1 = none) ∧
    (¬ ((create_alert s c now).1 = none) →
      (create_alert s c now).2.alert_hashes = c :: s.alert_hashes ∧
      (create_alert s c now).2.recent_alerts = deqPush 100 s.recent_alerts c) := by
  by_cases h : should_suppress_alert s c now
  · unfold create_alert
    rw [if_pos h]
    rw [should_suppress_alert] at h
    exact ⟨iff_of_true rfl h, fun hsub => hsub, fun _ _ => rfl,
      fun hn => absurd rfl hn⟩
  · unfold create_alert
    rw [if_neg h]
    rw [should_suppress_alert] at h
    refine ⟨iff_of_false (by simp) h, ?_, ?_, fun _ => ⟨rfl, rfl⟩⟩
    · intro hsub x hx
      have hx2 : x ∈ s.recent_alerts ++ [c] := List.drop_subset _ _ hx
      rcases List.mem_append.mp hx2 with hx3 | hx3
      · exact List.mem_cons_of_mem c (hsub hx3)
      · rw [List.mem_singleton.mp hx3]
        exact List.mem_cons_self c s.alert_hashes
    · intro hsub hc
      exact absurd (Or.inl (hsub hc)) h

/-- Witness for C6: a repeat of the single alert in the recent window is
suppressed. -/
theorem claim_C6_witness :
    (create_alert ⟨[critContent 0], [critContent 0], fun _ => 0⟩
      (critContent 0) 7).1 = none :=
  (claim_C6 ⟨[critContent 0], [critContent 0], fun _ => 0⟩ (critContent 0) 7).2.2.1
    (fun x hx => hx) (by simp)

/-! ## EARCalculator (`src/core/ear.py`, lines 28-173)

Coordinates are modelled as real pairs and `np.linalg.norm` as the real
Euclidean distance (the one genuinely floating-point computation, a square
root, is modelled exactly on ℝ). -/

/-- `np.linalg.norm(p1 - p2)` for 2-D points. -/
noncomputable def euclideanDist (p q : ℝ × ℝ) : ℝ :=
  Real.sqrt ((p.1 - q.1) ^ 2 + (p.2 - q.2) ^ 2)

/-- `landmarks[eye_indices[j]]` (total with dummy defaults; every use is
guarded by the index-bounds check of the source). -/
def eyePoint (landmarks : List (ℝ × ℝ)) (idx : List ℕ) (j : ℕ) : ℝ × ℝ :=
  landmarks.getD (idx.getD j 0) (0, 0)

/-- `v1 = dist(eye_points[1], eye_points[5])`. -/
noncomputable def eyeV1 (landmarks : List (ℝ × ℝ)) (idx : List ℕ) : ℝ :=
  euclideanDist (eyePoint landmarks idx 1) (eyePoint landmarks idx 5)

/-- `v2 = dist(eye_points[2], eye_points[4])`. -/
noncomputable def eyeV2 (landmarks : List (ℝ × ℝ)) (idx : List ℕ) : ℝ :=
  euclideanDist (eyePoint landmarks idx 2) (eyePoint landmarks idx 4)

/-- `h = dist(eye_points[0], eye_points[3])`. -/
noncomputable def eyeH (landmarks : List (ℝ × ℝ)) (idx : List ℕ) : ℝ :=
  euclideanDist (eyePoint landmarks idx 0) (eyePoint landmarks idx 3)

/-- `ear = (v1 + v2) / (2.0 * h)`. -/
noncomputable def eyeEarRaw (landmarks : List (ℝ × ℝ)) (idx : List ℕ) : ℝ :=
  (eyeV1 landmarks idx + eyeV2 landmarks idx) / (2 * eyeH landmarks idx)

namespace EARCalculator

/-- `EARCalculator.LEFT_EYE_INDICES`. -/
def LEFT_EYE_INDICES : List ℕ := [362, 385, 387, 263, 373, 380]

/-- `EARCalculator.RIGHT_EYE_INDICES`. -/
def RIGHT_EYE_INDICES : List ℕ := [33, 160, 158, 133, 153, 144]

/-- `EARCalculator.calculate_single_eye_ear` with validity range
`[min_ear, max_ear]` (constructor defaults 0.0 and 1.0): None unless exactly
6 in-bounds indices are supplied (an out-of-bounds index raises IndexError,
caught to None), the horizontal distance is at least 1e-6, and the computed
ratio lies inside the validity range. -/
noncomputable def calculate_single_eye_ear (min_ear max_ear : ℝ)
    (landmarks : List (ℝ × ℝ)) (eye_indices : List ℕ) : Option ℝ :=
  if eye_indices.length ≠ 6 then none
  else if ∃ i ∈ eye_indices, landmarks.length ≤ i then none
  else if eyeH landmarks eye_indices < 1 / 1000000 then none
  else if min_ear ≤ eyeEarRaw landmarks eye_indices ∧
          eyeEarRaw landmarks eye_indices ≤ max_ear then
    some (eyeEarRaw landmarks eye_indices)
  else none

/-- `EARResult` (`src/core/ear.py`, lines 13-25). -/
structure EARResult where
  ear : ℝ
  left_ear : ℝ
  right_ear : ℝ
  is_valid : Bool
  confidence : ℝ

/-- `EARCalculator.calculate_ear` with the default eye indices: averages the
two per-eye EARs when both succeed (confidence from eye symmetry), otherwise
returns the fallback invalid result (`left_ear or 0.0` coincides with
`getD 0` since a failed eye is None and `0.0 or 0.0` is `0.0`). -/
noncomputable def calculate_ear (min_ear max_ear : ℝ)
    (landmarks : List (ℝ × ℝ)) : EARResult :=
  match calculate_single_eye_ear min_ear max_ear landmarks LEFT_EYE_INDICES,
        calculate_single_eye_ear min_ear max_ear landmarks RIGHT_EYE_INDICES with
  | some le, some re =>
      { ear := (le + re) / 2, left_ear := le, right_ear := re,
        is_valid := true, confidence := max 0 (1 - |le - re| / (1/10)) }
  | l, r =>
      { ear := 0, left_ear := l.getD 0, right_ear := r.getD 0,
        is_valid := false, confidence := 0 }

end EARCalculator

/-- The per-eye EAR computation the claim describes: fails only on fewer than
6 indices, an out-of-range index, or a degenerate horizontal distance, and
otherwise returns `(v1 + v2) / (2 * h)`. -/
noncomputable def calculate_single_eye_ear_claimed
    (landmarks : List (ℝ × ℝ)) (eye_indices : List ℕ) : Option ℝ :=
  if eye_indices.length < 6 ∨ ∃ i ∈ eye_indices, landmarks.length ≤ i then none
  else if eyeH landmarks eye_indices < 1 / 1000000 then none
  else some (eyeEarRaw landmarks eye_indices)

theorem sqrt_hundred : Real.sqrt 100 = 10 := by
  rw [show (100 : ℝ) = 10 ^ 2 by norm_num]
  exact Real.sqrt_sq (by norm_num)

/-- Landmarks whose eye geometry yields EAR = 10 (far outside [0, 1]). -/
noncomputable def cexLandmarks : List (ℝ × ℝ) :=
  [(0, 0), (0, 10), (0, 10), (1, 0), (0, 0), (0, 0)]

def cexIdx : List ℕ := [0, 1, 2, 3, 4, 5]

theorem cex_eyeH : eyeH cexLandmarks cexIdx = 1 := by
  rw [eyeH]
  simp only [eyePoint, cexLandmarks, cexIdx, List.getD, euclideanDist]
  norm_num

theorem cex_eyeEarRaw : eyeEarRaw cexLandmarks cexIdx = 10 := by
  have h1 : eyeV1 cexLandmarks cexIdx = 10 := by
    rw [eyeV1]
    simp only [eyePoint, cexLandmarks, cexIdx, List.getD, euclideanDist]
    norm_num
    exact sqrt_hundred
  have h2 : eyeV2 cexLandmarks cexIdx = 10 := by
    rw [eyeV2]
    simp only [eyePoint, cexLandmarks, cexIdx, List.getD, euclideanDist]
    norm_num
    exact sqrt_hundred
  rw [eyeEarRaw, h1, h2, cex_eyeH]
  norm_num

/-- C9 counterexample: on a landmark set with exactly 6 in-range indices and
horizontal distance 1 ≥ 1e-6, the claim predicts `(v1+v2)/(2h) = 10` to be
returned, but the code rejects it through the `[min_ear, max_ear] = [0, 1]`
range validation the claim omits, returning None. -/
theorem claim_C9_counterexample :
    EARCalculator.calculate_single_eye_ear 0 1 cexLandmarks cexIdx = none ∧
    calculate_single_eye_ear_claimed cexLandmarks cexIdx = some 10 ∧
    ¬ (EARCalculator.calculate_single_eye_ear 0 1 cexLandmarks cexIdx
        = calculate_single_eye_ear_claimed cexLandmarks cexIdx) := by
  have hcode : EARCalculator.calculate_single_eye_ear 0 1 cexLandmarks cexIdx
      = none := by
    rw [EARCalculator.calculate_single_eye_ear]
    rw [if_neg (by simp [cexIdx])]
    rw [if_neg (by simp [cexIdx, cexLandmarks])]
    rw [if_neg (by rw [cex_eyeH]; norm_num)]
    rw [if_neg (by rw [cex_eyeEarRaw]; norm_num)]
  have hclaimed : calculate_single_eye_ear_claimed cexLandmarks cexIdx
      = some 10 := by
    rw [calculate_single_eye_ear_claimed]
    rw [if_neg (by simp [cexIdx, cexLandmarks])]
    rw [if_neg (by rw [cex_eyeH]; norm_num)]
    rw [cex_eyeEarRaw]
  refine ⟨hcode, hclaimed, ?_⟩
  rw [hcode, hclaimed]
  simp

/-- C9 (amended): the single-eye EAR computation fails exactly when the index
list does not have exactly 6 entries, an index is out of range of the
landmark list, the horizontal distance is below 1e-6, or the computed ratio
falls outside the calculator validity range `[min_ear, max_ear]` (defaults
[0, 1]); otherwise it returns `(v1 + v2) / (2 * h)` over the canonical point
order. -/
theorem claim_C9 (min_ear max_ear : ℝ) (landmarks : List (ℝ × ℝ))
    (idx : List ℕ) :
    (EARCalculator.calculate_single_eye_ear min_ear max_ear landmarks idx = none ↔
      (idx.length ≠ 6 ∨ (∃ i ∈ idx, landmarks.length ≤ i) ∨
       eyeH landmarks idx < 1 / 1000000 ∨
       ¬ (min_ear ≤ eyeEarRaw landmarks idx ∧
          eyeEarRaw landmarks idx ≤ max_ear))) ∧
    (idx.length = 6 → (∀ i ∈ idx, i < landmarks.length) →
      ¬ (eyeH landmarks idx < 1 / 1000000) →
      min_ear ≤ eyeEarRaw landmarks idx → eyeEarRaw landmarks idx ≤ max_ear →
      EARCalculator.calculate_single_eye_ear min_ear max_ear landmarks idx
        = some ((eyeV1 landmarks idx + eyeV2 landmarks idx)
                  / (2 * eyeH landmarks idx))) := by
  rw [EARCalculator.calculate_single_eye_ear]
  split_ifs with h1 h2 h3 h4
  · exact ⟨iff_of_true rfl (Or.inl h1), fun he _ _ _ _ => absurd he h1⟩
  · refine ⟨iff_of_true rfl (Or.inr (Or.inl h2)), fun _ hin _ _ _ => ?_⟩
    obtain ⟨i, hi, hle⟩ := h2
    exact absurd (hin i hi) (not_lt.mpr hle)
  · exact ⟨iff_of_true rfl (Or.inr (Or.inr (Or.inl h3))),
      fun _ _ hn _ _ => absurd h3 hn⟩
  · refine ⟨iff_of_false (by simp) ?_, fun _ _ _ _ _ => rfl⟩
    rintro (hc | hc | hc | hc)
    · exact h1 hc
    · exact h2 hc
    · exact h3 hc
    · exact hc h4
  · exact ⟨iff_of_true rfl (Or.inr (Or.inr (Or.inr h4))),
      fun _ _ _ ha hb => absurd ⟨ha, hb⟩ h4⟩

/-- Landmarks with a benign EAR of 1/4. -/
noncomputable def okLandmarks : List (ℝ × ℝ) :=
  [(0, 0), (0, 1), (0, 1), (4, 0), (0, 0), (0, 0)]

theorem ok_eyeH : eyeH okLandmarks cexIdx = 4 := by
  rw [eyeH]
  simp only [eyePoint, okLandmarks, cexIdx, List.getD, euclideanDist]
  norm_num
  rw [show (16 : ℝ) = 4 ^ 2 by norm_num]
  exact Real.sqrt_sq (by norm_num)

theorem ok_eyeV1 : eyeV1 okLandmarks cexIdx = 1 := by
  rw [eyeV1]
  simp only [eyePoint, okLandmarks, cexIdx, List.getD, euclideanDist]
  norm_num

theorem ok_eyeV2 : eyeV2 okLandmarks cexIdx = 1 := by
  rw [eyeV2]
  simp only [eyePoint, okLandmarks, cexIdx, List.getD, euclideanDist]
  norm_num

theorem ok_eyeEarRaw : eyeEarRaw okLandmarks cexIdx = 1/4 := by
  rw [eyeEarRaw, ok_eyeV1, ok_eyeV2, ok_eyeH]
  norm_num

/-- Witness for C9 on the benign landmark set: a valid EAR of 1/4 is
returned. -/
theorem claim_C9_witness :
    EARCalculator.calculate_single_eye_ear 0 1 okLandmarks cexIdx
      = some ((eyeV1 okLandmarks cexIdx + eyeV2 okLandmarks cexIdx)
                / (2 * eyeH okLandmarks cexIdx)) :=
  (claim_C9 0 1 okLandmarks cexIdx).2 (by simp [cexIdx])
    (by simp [cexIdx, okLandmarks])
    (by rw [ok_eyeH]; norm_num)
    (by rw [ok_eyeEarRaw]; norm_num)
    (by rw [ok_eyeEarRaw]; norm_num)

/-- C10: whenever either per-eye EAR computation fails,
`EARCalculator.calculate_ear` does not propagate an error but returns an
`EARResult` with `ear = 0.0`, `is_valid = False` and `confidence = 0.0` —
indistinguishable by its `ear` value from fully closed eyes. -/
theorem claim_C10 (min_ear max_ear : ℝ) (landmarks : List (ℝ × ℝ))
    (h : EARCalculator.calculate_single_eye_ear min_ear max_ear landmarks
          EARCalculator.LEFT_EYE_INDICES = none ∨
         EARCalculator.calculate_single_eye_ear min_ear max_ear landmarks
          EARCalculator.RIGHT_EYE_INDICES = none) :
    (EARCalculator.calculate_ear min_ear max_ear landmarks).ear = 0 ∧
    (EARCalculator.calculate_ear min_ear max_ear landmarks).is_valid = false ∧
    (EARCalculator.calculate_ear min_ear max_ear landmarks).confidence = 0 := by
  rw [EARCalculator.calculate_ear]
  cases hl : EARCalculator.calculate_single_eye_ear min_ear max_ear landmarks
      EARCalculator.LEFT_EYE_INDICES with
  | none =>
    cases hr : EARCalculator.calculate_single_eye_ear min_ear max_ear landmarks
        EARCalculator.RIGHT_EYE_INDICES with
    | none => exact ⟨rfl, rfl, rfl⟩
    | some re => exact ⟨rfl, rfl, rfl⟩
  | some le =>
    cases hr : EARCalculator.calculate_single_eye_ear min_ear max_ear landmarks
        EARCalculator.RIGHT_EYE_INDICES with
    | none => exact ⟨rfl, rfl, rfl⟩
    | some re =>
      rcases h with h | h
      · rw [hl] at h
        simp at h
      · rw [hr] at h
        simp at h

/-- Witness for C10: with no landmarks at all, both eyes fail and the
fallback result is returned. -/
theorem claim_C10_witness :
    (EARCalculator.calculate_ear 0 1 []).ear = 0 ∧
    (EARCalculator.calculate_ear 0 1 []).is_valid = false ∧
    (EARCalculator.calculate_ear 0 1 []).confidence = 0 :=
  claim_C10 0 1 [] (Or.inl (by
    rw [EARCalculator.calculate_single_eye_ear]
    rw [if_neg (by simp [EARCalculator.LEFT_EYE_INDICES])]
    rw [if_pos ⟨362, by simp [EARCalculator.LEFT_EYE_INDICES], by simp⟩]))

end DrowsinessDetection
